import Mathlib

/-!
Shallow embedding of the `dowhy` orchestration layer (`dowhy/causal_model.py`,
class `CausalModel`) together with the collaborating components it calls into
(`CausalGraph`, `CausalIdentifier`, `IdentifiedEstimand`, `parse_state`,
`cli.query_yes_no`).  Only `causal_model.py` is present in the repository
excerpt; the collaborators are modelled from the specification document and
each such definition is marked `Modelled from the spec:` in its doc comment.

Python exceptions are embedded as an error type and fallible operations return
`Except`.  A pandas dataframe is embedded by the only part of it the code
touches, its list of column names.  Logging calls are not modelled; the single
interactive side effect of construction (the `cli.query_yes_no` confirmation
gate) is modelled as an explicit effect value returned by construction.
-/

/-- Errors of the embedded code: Python exception kinds raised by the
orchestration layer, plus the spec's error taxonomy entries for the modelled
collaborators. -/
inductive PyError where
  /-- Python `AttributeError`: access of an attribute that was never assigned. -/
  | attributeError : PyError
  /-- Python `NameError`: use of a local variable that was never bound. -/
  | nameError : PyError
  /-- Python `IndexError`: out-of-range sequence access. -/
  | indexError : PyError
  /-- Python `KeyError`: dictionary access with an absent key. -/
  | keyError : PyError
  /-- Spec taxonomy *InvalidMethodSelection*: identifier method name absent
  from or null in the estimand map, raised at selection time. -/
  | invalidMethodSelection : PyError
  /-- Spec taxonomy *UnsupportedEstimandType*: estimand type other than the
  supported one, fatal at the identify-effect call. -/
  | unsupportedEstimandType : PyError
deriving DecidableEq, Repr

/-- A pandas dataframe, embedded by the only part of it `causal_model.py`
reads: `data.columns.tolist()`. -/
structure DataFrame where
  columns : List String
deriving DecidableEq, Repr

/-- Modelled from the spec: the already-parsed explicit graph handed to the
core by the (out-of-scope) parsing layer — "a structured edge list", node
names plus directed edges. -/
structure GraphSpec where
  nodes : List String
  edges : List (String × String)
deriving DecidableEq, Repr

/-- Modelled from the spec: the `CausalGraph` state — a directed graph over
named variables, the treatment and outcome name sequences it was built for,
the observed node names, and the bidirected (latent-confounding) edges. -/
structure CausalGraph where
  treatments : List String
  outcomes : List String
  nodes : List String
  edges : List (String × String)
  bidirected : List (String × String)
  observed : List String
deriving DecidableEq, Repr

/-- Bounded reachability along directed edges: `isAncestorFuel edges n a b`
is `true` iff there is a nonempty directed path from `a` to `b` of length at
most `n`.  With fuel ≥ the number of nodes this is the standard transitive
closure used by the spec's `ancestors`/`descendants` operations. -/
def isAncestorFuel (edges : List (String × String)) : Nat → String → String → Bool
  | 0, _, _ => false
  | n + 1, a, b =>
      decide ((a, b) ∈ edges) ||
        edges.any (fun e => e.2 == b && isAncestorFuel edges n a e.1)

/-- Modelled from the spec: `a` is a (strict) ancestor of `b` in the graph —
transitive closure over directed edges; fuel is the node count, enough for
any simple path. -/
def CausalGraph.isAncestorOf (g : CausalGraph) (a b : String) : Bool :=
  isAncestorFuel g.edges g.nodes.length a b

/-- Modelled from the spec: `getCommonCauses(treatment_set, outcome_set)` —
"variables that are ancestors of at least one treatment node and at least one
outcome node, excluding nodes that are descendants of any treatment node". -/
def CausalGraph.get_common_causes (g : CausalGraph) (ts ys : List String) : List String :=
  g.nodes.filter (fun v =>
    ts.any (fun t => g.isAncestorOf v t) &&
    ys.any (fun y => g.isAncestorOf v y) &&
    !(ts.any (fun t => g.isAncestorOf t v)))

/-- Modelled from the spec: `getInstruments(treatment_set, outcome_set)` —
"variables that are ancestors of a treatment node, are not ancestors of an
outcome node through any path avoiding treatment, and have no direct edge
into outcome". -/
def CausalGraph.get_instruments (g : CausalGraph) (ts ys : List String) : List String :=
  let avoidingTreatment :=
    g.edges.filter (fun e => !(decide (e.1 ∈ ts)) && !(decide (e.2 ∈ ts)))
  g.nodes.filter (fun v =>
    ts.any (fun t => g.isAncestorOf v t) &&
    !(ys.any (fun y => isAncestorFuel avoidingTreatment g.nodes.length v y)) &&
    !(ys.any (fun y => decide ((v, y) ∈ g.edges))))

/-- Modelled from the spec: `getEffectModifiers(treatment_set, outcome_set)` —
"approximated as non-ancestors of treatment that are ancestors of outcome";
treatment and outcome nodes themselves are not candidate modifiers. -/
def CausalGraph.get_effect_modifiers (g : CausalGraph) (ts ys : List String) : List String :=
  g.nodes.filter (fun v =>
    !(decide (v ∈ ts)) && !(decide (v ∈ ys)) &&
    !(ts.any (fun t => g.isAncestorOf v t)) &&
    ys.any (fun y => g.isAncestorOf v y))

/-- Modelled from the spec: `CausalGraph` construction from declared role
sets (no explicit graph): "direct edges are synthesized: every common cause →
treatment, every common cause → outcome, every instrument → treatment,
treatment → outcome"; effect-modifier names become nodes with no synthesized
edges. -/
def causalGraphFromRoles (ts ys ccs insts ems observed : List String) : CausalGraph :=
  { treatments := ts
    outcomes := ys
    nodes := ccs ++ insts ++ ems ++ ts ++ ys
    edges :=
      ccs.flatMap (fun c => ts.map (fun t => (c, t))) ++
      ccs.flatMap (fun c => ys.map (fun y => (c, y))) ++
      insts.flatMap (fun i => ts.map (fun t => (i, t))) ++
      ts.flatMap (fun t => ys.map (fun y => (t, y)))
    bidirected := []
    observed := observed }

/-- Modelled from the spec: `CausalGraph` construction from an explicit
(parsed) graph.  With `missing_nodes_as_confounders` enabled, "any dataset
column present in observed data but absent from the declared graph is added
as a common-cause node connected to both treatment and outcome". -/
def causalGraphFromSpec (ts ys : List String) (gs : GraphSpec)
    (observed : List String) (missingAsConfounders : Bool) : CausalGraph :=
  let missing :=
    if missingAsConfounders then observed.filter (fun c => !(decide (c ∈ gs.nodes))) else []
  { treatments := ts
    outcomes := ys
    nodes := gs.nodes ++ missing
    edges := gs.edges ++
      missing.flatMap (fun c => ts.map (fun t => (c, t)) ++ ys.map (fun y => (c, y)))
    bidirected := []
    observed := observed }

/-- Modelled from the spec: `parse_state` normalization of a declared role
set — an absent (None) declaration becomes the empty name sequence, a
declared list of names is kept as is. -/
def parse_state (s : Option (List String)) : List String :=
  s.getD []

/-- Side effects of `CausalModel.__init__` that the embedding records.  Only
the interactive confirmation gate is an effect; logging is out of scope. -/
inductive InitEffect where
  /-- An inline terminal yes/no prompt executed by `__init__` itself through
  the module-level `cli.query_yes_no` function (the constructor takes no
  caller-supplied confirmation callback). -/
  | inlineQueryYesNo (message : String) (default : Option Bool)
deriving DecidableEq, Repr

/-- The exact prompt text `__init__` passes to `cli.query_yes_no`. -/
def warnNoCommonCausesMsg : String :=
  "WARN: Are you sure that there are no common causes of treatment and outcome?"

/-- Modelled from the spec: a symbolic estimand expression — an opaque
placeholder "parameterized by the chosen variable sets". -/
inductive EstimandExpr where
  /-- Backdoor estimand: effect of treatment on outcome adjusted for a set. -/
  | backdoorAdjusted (treatments outcomes adjustment : List String)
  /-- Instrumental-variable estimand: effect via an instrument set. -/
  | ivExpr (treatments outcomes instruments : List String)
deriving DecidableEq, Repr

/-- Modelled from the spec: the `IdentifiedEstimand` result container — "a
mapping from identification method name to a symbolic estimand expression (or
absence thereof)" plus the mutable selected-identifier-method tag. -/
structure IdentifiedEstimand where
  treatment : List String
  outcome : List String
  estimand_type : String
  estimands : List (String × Option EstimandExpr)
  identifier_method : Option String
deriving DecidableEq, Repr

/-- Modelled from the spec: `setIdentifierMethod(name)` — "records which
populated method the caller chose to use downstream; fails if name not a key
or its value is null" (*InvalidMethodSelection*, fatal at selection time). -/
def IdentifiedEstimand.set_identifier_method (e : IdentifiedEstimand) (name : String) :
    Except PyError IdentifiedEstimand :=
  match e.estimands.lookup name with
  | none => .error .invalidMethodSelection
  | some none => .error .invalidMethodSelection
  | some (some _) => .ok { e with identifier_method := some name }

/-- Modelled from the spec: the `CausalIdentifier` state — the graph it was
given, the requested estimand type, and the effective
`proceed_when_unidentifiable` flag. -/
structure CausalIdentifier where
  graph : CausalGraph
  estimand_type : String
  proceed_when_unidentifiable : Bool
deriving DecidableEq, Repr

/-- The single estimand type the engine supports. -/
def supportedEstimandType : String := "nonparametric-ate"

/-- Modelled from the spec: the identification engine's output for a
supported request.  The method map always carries the three method slots
("backdoor", "iv", "frontdoor"); the backdoor slot is populated with the
graph's derived common causes unless the unobserved-confounder guard nulls
it (bidirected edges present and `proceed_when_unidentifiable` false), the
iv slot is populated iff a valid instrument exists, and the optional
front-door slot is left null.  The spec's bounded subset search and
separation oracle are abstracted to the declared-common-cause policy; no
claim under verification depends on that refinement. -/
def CausalIdentifier.buildEstimand (idf : CausalIdentifier) : IdentifiedEstimand :=
  let g := idf.graph
  let ccs := g.get_common_causes g.treatments g.outcomes
  let insts := g.get_instruments g.treatments g.outcomes
  let backdoor : Option EstimandExpr :=
    if !idf.proceed_when_unidentifiable && !g.bidirected.isEmpty then none
    else some (.backdoorAdjusted g.treatments g.outcomes ccs)
  let iv : Option EstimandExpr :=
    if insts.isEmpty then none else some (.ivExpr g.treatments g.outcomes insts)
  { treatment := g.treatments
    outcome := g.outcomes
    estimand_type := idf.estimand_type
    estimands := [("backdoor", backdoor), ("iv", iv), ("frontdoor", none)]
    identifier_method := none }

/-- Modelled from the spec: `CausalIdentifier.identify_effect` — "currently
only \"nonparametric average treatment effect\" is supported — requesting any
other value fails fast with an unsupported-type error", fatal at the
identify-effect call; a supported request always returns the estimand
container (identifiability failure is communicated through null entries,
never an exception). -/
def CausalIdentifier.identify_effect (idf : CausalIdentifier) :
    Except PyError IdentifiedEstimand :=
  if idf.estimand_type = supportedEstimandType then .ok idf.buildEstimand
  else .error .unsupportedEstimandType

/-- The `CausalModel` state: the attributes `__init__` assigns.  `graph` is an
`Option` because the constructor's no-graph/no-roles branch never assigns the
`_graph` attribute (access then raises `AttributeError`); `identifier` is
likewise only assigned by `identify_effect`. -/
structure CausalModel where
  data : DataFrame
  treatment : List String
  outcome : List String
  estimand_type : String
  proceed_when_unidentifiable : Bool
  missing_nodes_as_confounders : Bool
  graph : Option CausalGraph
  common_causes : List String
  instruments : List String
  effect_modifiers : List String
  identifier : Option CausalIdentifier
deriving DecidableEq, Repr

/-- The arguments of `CausalModel.__init__`.  Treatment and outcome are taken
as already-parsed name sequences (`parse_state` of a single name wraps it in
a one-element list); the three role declarations keep their optionality. -/
structure InitArgs where
  data : DataFrame
  treatment : List String
  outcome : List String
  graph : Option GraphSpec
  common_causes : Option (List String)
  instruments : Option (List String)
  effect_modifiers : Option (List String)
  estimand_type : String
  proceed_when_unidentifiable : Bool
  missing_nodes_as_confounders : Bool
deriving DecidableEq, Repr

/-- Embedding of `CausalModel.__init__` (causal_model.py lines 59-123).
Returns the constructed model together with the list of interactive effects
performed inline during construction.  With no graph, the declared roles are
stored and a graph is synthesized when common causes or instruments are
declared; with neither, the constructor only runs the inline
`cli.query_yes_no` confirmation gate and leaves `_graph` unassigned.  With an
explicit graph, the stored role sets are recomputed from the constructed
graph and the declared role arguments are ignored. -/
def CausalModel.init (a : InitArgs) : Except PyError (CausalModel × List InitEffect) :=
  match a.graph with
  | none =>
      let ccs := parse_state a.common_causes
      let insts := parse_state a.instruments
      let ems := parse_state a.effect_modifiers
      let base : CausalModel :=
        { data := a.data
          treatment := a.treatment
          outcome := a.outcome
          estimand_type := a.estimand_type
          proceed_when_unidentifiable := a.proceed_when_unidentifiable
          missing_nodes_as_confounders := a.missing_nodes_as_confounders
          graph := none
          common_causes := ccs
          instruments := insts
          effect_modifiers := ems
          identifier := none }
      match a.common_causes, a.instruments with
      | some _, some _ =>
          .ok ({ base with
                  graph := some (causalGraphFromRoles a.treatment a.outcome ccs insts ems
                    a.data.columns) }, [])
      | some _, none =>
          .ok ({ base with
                  graph := some (causalGraphFromRoles a.treatment a.outcome ccs [] ems
                    a.data.columns) }, [])
      | none, some _ =>
          .ok ({ base with
                  graph := some (causalGraphFromRoles a.treatment a.outcome [] insts ems
                    a.data.columns) }, [])
      | none, none =>
          .ok (base, [.inlineQueryYesNo warnNoCommonCausesMsg none])
  | some gs =>
      let g := causalGraphFromSpec a.treatment a.outcome gs a.data.columns
        a.missing_nodes_as_confounders
      .ok ({ data := a.data
             treatment := a.treatment
             outcome := a.outcome
             estimand_type := a.estimand_type
             proceed_when_unidentifiable := a.proceed_when_unidentifiable
             missing_nodes_as_confounders := a.missing_nodes_as_confounders
             graph := some g
             common_causes := g.get_common_causes a.treatment a.outcome
             instruments := g.get_instruments a.treatment a.outcome
             effect_modifiers := g.get_effect_modifiers a.treatment a.outcome
             identifier := none }, [])

/-- Embedding of `CausalModel.identify_effect` (causal_model.py lines
125-140).  A `none` flag falls back to the flag stored at construction; the
call builds a fresh `CausalIdentifier`, stores it in `self.identifier`, and
returns the identified estimand.  Accessing a never-assigned `_graph`
attribute raises `AttributeError`. -/
def CausalModel.identify_effect (m : CausalModel) (proceed : Option Bool) :
    Except PyError (IdentifiedEstimand × CausalModel) :=
  let p := proceed.getD m.proceed_when_unidentifiable
  match m.graph with
  | none => .error .attributeError
  | some g =>
      let idf : CausalIdentifier :=
        { graph := g, estimand_type := m.estimand_type, proceed_when_unidentifiable := p }
      match idf.identify_effect with
      | .error e => .error e
      | .ok est => .ok (est, { m with identifier := some idf })

/-- Embedding of `CausalModel.view_model` (causal_model.py lines 291-299):
accesses `self._graph` (raising `AttributeError` when it was never assigned)
and hands it to the out-of-scope renderer. -/
def CausalModel.view_model (m : CausalModel) : Except PyError Unit :=
  match m.graph with
  | none => .error .attributeError
  | some _ => .ok ()

/-- An opaque numeric estimate produced by an out-of-scope estimator. -/
inductive EstimateValue where
  | externalEstimate (estimator : String)
deriving DecidableEq, Repr

/-- An opaque realized estimand expression produced by an out-of-scope
estimator. -/
inductive RealizedExpr where
  | externalExpr (estimator : String)
deriving DecidableEq, Repr

/-- The `CausalEstimate` result container by its first three constructor
arguments, the ones `causal_model.py` sets explicitly in its no-op branch:
`CausalEstimate(None, None, None)` is `⟨none, none, none⟩`. -/
structure CausalEstimate where
  value : Option EstimateValue
  target_estimand : Option IdentifiedEstimand
  realized_estimand_expr : Option RealizedExpr
deriving DecidableEq, Repr

/-- Auxiliary scan for `splitOnce`: returns the characters before the first
`'.'` (accumulated in reverse) and the characters after it, or `none` when no
`'.'` occurs. -/
def splitOnceAux : List Char → List Char → Option (List Char × List Char)
  | [], _ => none
  | c :: rest, acc =>
      if c = '.' then some (acc.reverse, rest) else splitOnceAux rest (c :: acc)

/-- Python `s.split(".", maxsplit=1)`: at most one split, at the first dot;
a string without a dot yields a one-element list. -/
def splitOnce (s : String) : List String :=
  match splitOnceAux s.data [] with
  | none => [s]
  | some (a, b) => [String.mk a, String.mk b]

/-- Embedding of `CausalModel.estimate_effect` (causal_model.py lines
142-219), restricted to the arguments the embedded control flow reads.  A
`none` method name skips the name-splitting branch and then reads the
never-bound local `identifier_name` (Python `NameError`); a method name
without a dot fails at `str_arr[1]` (Python `IndexError`); otherwise the
identifier part is recorded on the estimand via `set_identifier_method`
(which rejects absent or null entries), and the estimand-or-null lookup
decides between the warned no-op estimate `CausalEstimate(None, None, None)`
and a run of the (out-of-scope) estimator, whose outputs are opaque.  The
returned Boolean records whether the no-estimand warning was logged. -/
def CausalModel.estimate_effect (m : CausalModel) (ie : IdentifiedEstimand)
    (method_name : Option String) : Except PyError (CausalEstimate × Bool) :=
  match method_name with
  | none => .error .nameError
  | some s =>
      match splitOnce s with
      | [identifier_name, estimator_name] =>
          match ie.set_identifier_method identifier_name with
          | .error e => .error e
          | .ok ie2 =>
              match ie2.estimands.lookup identifier_name with
              | none => .error .keyError
              | some none => .ok (⟨none, none, none⟩, true)
              | some (some _) =>
                  .ok (⟨some (.externalEstimate estimator_name), some ie2,
                        some (.externalExpr estimator_name)⟩, false)
      | _ => .error .indexError

/-- A small explicit parsed graph used by concrete instances: Z → T, Z → Y,
T → Y. -/
def sampleGraphSpec : GraphSpec :=
  { nodes := ["Z", "T", "Y"], edges := [("Z", "T"), ("Z", "Y"), ("T", "Y")] }

/-- Construction arguments supplying the explicit sample graph together with
caller-declared role sets (which the constructor must ignore). -/
def sampleGraphArgs : InitArgs :=
  { data := { columns := ["T", "Y", "Z", "W"] }
    treatment := ["T"]
    outcome := ["Y"]
    graph := some sampleGraphSpec
    common_causes := some ["DECLARED_CC"]
    instruments := some ["DECLARED_IV"]
    effect_modifiers := none
    estimand_type := "nonparametric-ate"
    proceed_when_unidentifiable := false
    missing_nodes_as_confounders := true }

/-- The graph the explicit-graph construction builds from `sampleGraphArgs`
(column W is absent from the declared graph and gets completed in). -/
def sampleGraph : CausalGraph :=
  causalGraphFromSpec ["T"] ["Y"] sampleGraphSpec ["T", "Y", "Z", "W"] true

/-- A fully constructed model over the sample graph. -/
def sampleModel : CausalModel :=
  { data := { columns := ["T", "Y", "Z", "W"] }
    treatment := ["T"]
    outcome := ["Y"]
    estimand_type := "nonparametric-ate"
    proceed_when_unidentifiable := false
    missing_nodes_as_confounders := true
    graph := some sampleGraph
    common_causes := sampleGraph.get_common_causes ["T"] ["Y"]
    instruments := sampleGraph.get_instruments ["T"] ["Y"]
    effect_modifiers := sampleGraph.get_effect_modifiers ["T"] ["Y"]
    identifier := none }

/-- The sample model with an estimand type other than the supported one. -/
def unsupportedTypeModel : CausalModel :=
  { sampleModel with estimand_type := "ate" }

/-- An identified estimand whose backdoor entry is populated and whose iv
entry is null. -/
def sampleEstimand : IdentifiedEstimand :=
  { treatment := ["T"]
    outcome := ["Y"]
    estimand_type := "nonparametric-ate"
    estimands := [("backdoor", some (.backdoorAdjusted ["T"] ["Y"] ["Z"])),
                  ("iv", none), ("frontdoor", none)]
    identifier_method := none }

/-- Construction arguments with no graph, no common causes and no
instruments. -/
def ungraphedArgs : InitArgs :=
  { data := { columns := ["T", "Y"] }
    treatment := ["T"]
    outcome := ["Y"]
    graph := none
    common_causes := none
    instruments := none
    effect_modifiers := none
    estimand_type := "nonparametric-ate"
    proceed_when_unidentifiable := false
    missing_nodes_as_confounders := false }

/-- The model the no-graph/no-roles construction produces: its graph
attribute is never assigned. -/
def ungraphedModel : CausalModel :=
  { data := { columns := ["T", "Y"] }
    treatment := ["T"]
    outcome := ["Y"]
    estimand_type := "nonparametric-ate"
    proceed_when_unidentifiable := false
    missing_nodes_as_confounders := false
    graph := none
    common_causes := []
    instruments := []
    effect_modifiers := []
    identifier := none }

/-- The stored fields of `CausalModel` that `identify_effect` must leave
unchanged: data, graph, role sets, names, and the construction-time flags. -/
def preservesStoredFields (m m2 : CausalModel) : Prop :=
  m2.data = m.data ∧ m2.treatment = m.treatment ∧ m2.outcome = m.outcome ∧
  m2.estimand_type = m.estimand_type ∧
  m2.proceed_when_unidentifiable = m.proceed_when_unidentifiable ∧
  m2.missing_nodes_as_confounders = m.missing_nodes_as_confounders ∧
  m2.graph = m.graph ∧ m2.common_causes = m.common_causes ∧
  m2.instruments = m.instruments ∧ m2.effect_modifiers = m.effect_modifiers

/-- Construction arguments declaring common causes only (no graph, no
instruments): the round-trip scenario. -/
def declaredCCArgs : InitArgs :=
  { data := { columns := ["T", "Y", "Z1", "Z2"] }
    treatment := ["T"]
    outcome := ["Y"]
    graph := none
    common_causes := some ["Z1", "Z2"]
    instruments := none
    effect_modifiers := none
    estimand_type := "nonparametric-ate"
    proceed_when_unidentifiable := false
    missing_nodes_as_confounders := false }

/-- The model the explicit-graph branch of `__init__` constructs: the graph
is built from the parsed graph, the observed column names and the
missing-nodes flag, and the role sets are recomputed from it. -/
def graphBranchModel (a : InitArgs) (gs : GraphSpec) : CausalModel :=
  let g := causalGraphFromSpec a.treatment a.outcome gs a.data.columns
    a.missing_nodes_as_confounders
  { data := a.data
    treatment := a.treatment
    outcome := a.outcome
    estimand_type := a.estimand_type
    proceed_when_unidentifiable := a.proceed_when_unidentifiable
    missing_nodes_as_confounders := a.missing_nodes_as_confounders
    graph := some g
    common_causes := g.get_common_causes a.treatment a.outcome
    instruments := g.get_instruments a.treatment a.outcome
    effect_modifiers := g.get_effect_modifiers a.treatment a.outcome
    identifier := none }

theorem init_of_graph (a : InitArgs) (gs : GraphSpec) (h : a.graph = some gs) :
    CausalModel.init a = .ok (graphBranchModel a gs, []) := by
  simp [CausalModel.init, graphBranchModel, h]

/-- C1: for every construction in which an explicit graph is supplied, the
stored common-cause, instrument, and effect-modifier sets are obtained by
querying the constructed graph (`get_common_causes`, `get_instruments`,
`get_effect_modifiers` on the treatment/outcome pair), and the caller-declared
common_causes/instruments/effect_modifiers arguments do not influence the
construction result at all. -/
theorem claim_C1_graph_roles_derived (a : InitArgs) (gs : GraphSpec)
    (cc2 iv2 em2 : Option (List String)) (h : a.graph = some gs) :
    CausalModel.init a = .ok
      ({ data := a.data
         treatment := a.treatment
         outcome := a.outcome
         estimand_type := a.estimand_type
         proceed_when_unidentifiable := a.proceed_when_unidentifiable
         missing_nodes_as_confounders := a.missing_nodes_as_confounders
         graph := some (causalGraphFromSpec a.treatment a.outcome gs a.data.columns
           a.missing_nodes_as_confounders)
         common_causes := (causalGraphFromSpec a.treatment a.outcome gs a.data.columns
           a.missing_nodes_as_confounders).get_common_causes a.treatment a.outcome
         instruments := (causalGraphFromSpec a.treatment a.outcome gs a.data.columns
           a.missing_nodes_as_confounders).get_instruments a.treatment a.outcome
         effect_modifiers := (causalGraphFromSpec a.treatment a.outcome gs a.data.columns
           a.missing_nodes_as_confounders).get_effect_modifiers a.treatment a.outcome
         identifier := none }, []) ∧
    CausalModel.init { a with common_causes := cc2, instruments := iv2, effect_modifiers := em2 } =
      CausalModel.init a := by
  constructor
  · simp [CausalModel.init, h]
  · simp [CausalModel.init, h]

/-- Witness for C1 at the concrete sample arguments. -/
theorem claim_C1_graph_roles_derived_witness :
    sampleGraphArgs.graph = some sampleGraphSpec ∧
    CausalModel.init { sampleGraphArgs with common_causes := none, instruments := none, effect_modifiers := some ["W"] } =
      CausalModel.init sampleGraphArgs :=
  ⟨rfl, (claim_C1_graph_roles_derived sampleGraphArgs sampleGraphSpec none none
    (some ["W"]) rfl).2⟩

/-- C4: whenever the model's effective estimand type is any value other than
the supported "nonparametric-ate", `identify_effect` fails with the
unsupported-type error instead of returning an identified estimand. -/
theorem claim_C4_unsupported_type_fails (m : CausalModel) (g : CausalGraph) (p : Option Bool)
    (hg : m.graph = some g) (ht : m.estimand_type ≠ supportedEstimandType) :
    m.identify_effect p = .error .unsupportedEstimandType := by
  simp [CausalModel.identify_effect, hg, CausalIdentifier.identify_effect, ht]

/-- Witness for C4 at the concrete model whose estimand type is "ate". -/
theorem claim_C4_unsupported_type_fails_witness :
    unsupportedTypeModel.graph = some sampleGraph ∧
    unsupportedTypeModel.estimand_type ≠ supportedEstimandType ∧
    unsupportedTypeModel.identify_effect none = .error .unsupportedEstimandType :=
  ⟨rfl, by decide, claim_C4_unsupported_type_fails unsupportedTypeModel sampleGraph none
    rfl (by decide)⟩

/-- C8: when graph, common causes and instruments are all absent at
construction, construction itself succeeds (after the confirmation prompt)
but never assigns the graph attribute, and every later `identify_effect` or
`view_model` call fails with the missing-attribute error. -/
theorem claim_C8_unassigned_graph (a : InitArgs)
    (hg : a.graph = none) (hc : a.common_causes = none) (hi : a.instruments = none) :
    ∃ m effs, CausalModel.init a = .ok (m, effs) ∧ m.graph = none ∧
      (∀ p, m.identify_effect p = .error .attributeError) ∧
      m.view_model = .error .attributeError := by
  have h1 : CausalModel.init a = .ok
      ({ data := a.data
         treatment := a.treatment
         outcome := a.outcome
         estimand_type := a.estimand_type
         proceed_when_unidentifiable := a.proceed_when_unidentifiable
         missing_nodes_as_confounders := a.missing_nodes_as_confounders
         graph := none
         common_causes := []
         instruments := []
         effect_modifiers := parse_state a.effect_modifiers
         identifier := none }, [.inlineQueryYesNo warnNoCommonCausesMsg none]) := by
    simp [CausalModel.init, hg, hc, hi, parse_state]
  exact ⟨_, _, h1, rfl, fun p => rfl, rfl⟩

/-- Witness for C8 at the concrete no-graph/no-roles arguments. -/
theorem claim_C8_unassigned_graph_witness :
    ungraphedArgs.graph = none ∧ ungraphedArgs.common_causes = none ∧
    ungraphedArgs.instruments = none ∧
    ∃ m effs, CausalModel.init ungraphedArgs = .ok (m, effs) ∧ m.graph = none ∧
      (∀ p, m.identify_effect p = .error .attributeError) ∧
      m.view_model = .error .attributeError :=
  ⟨rfl, rfl, rfl, claim_C8_unassigned_graph ungraphedArgs rfl rfl rfl⟩

/-- C9: `estimate_effect` requires a dotted method name — a `none` method
name fails with the unbound-name error (no default method is selected), and
a method name without a dot separator fails with the out-of-range error when
split into identifier and estimator parts. -/
theorem claim_C9_method_name_required (m : CausalModel) (ie : IdentifiedEstimand)
    (s x : String) (h : splitOnce s = [x]) :
    m.estimate_effect ie none = .error .nameError ∧
    m.estimate_effect ie (some s) = .error .indexError := by
  constructor
  · rfl
  · simp [CausalModel.estimate_effect, h]

/-- Witness for C9 at the dotless method name "linear_regression". -/
theorem claim_C9_method_name_required_witness :
    splitOnce "linear_regression" = ["linear_regression"] ∧
    sampleModel.estimate_effect sampleEstimand none = .error .nameError ∧
    sampleModel.estimate_effect sampleEstimand (some "linear_regression") =
      .error .indexError :=
  ⟨by decide, claim_C9_method_name_required sampleModel sampleEstimand
    "linear_regression" "linear_regression" (by decide)⟩

/-- C10: `identify_effect` with no flag uses the construction-time
`proceed_when_unidentifiable` flag; with an explicit flag it uses that value
for this call only; in both cases the identifier it builds carries the
effective flag and all stored model fields (data, graph, role sets, names,
flags) are left unchanged by the call. -/
theorem claim_C10_proceed_flag_scope (m : CausalModel) (g : CausalGraph) (b : Bool)
    (hg : m.graph = some g) (ht : m.estimand_type = supportedEstimandType) :
    (m.identify_effect none = .ok
      ((⟨g, m.estimand_type, m.proceed_when_unidentifiable⟩ : CausalIdentifier).buildEstimand,
       { m with identifier := some ⟨g, m.estimand_type, m.proceed_when_unidentifiable⟩ })) ∧
    (m.identify_effect (some b) = .ok
      ((⟨g, m.estimand_type, b⟩ : CausalIdentifier).buildEstimand,
       { m with identifier := some ⟨g, m.estimand_type, b⟩ })) ∧
    (∀ p est m2, m.identify_effect p = .ok (est, m2) → preservesStoredFields m m2) := by
  refine ⟨?_, ?_, ?_⟩
  · simp [CausalModel.identify_effect, hg, CausalIdentifier.identify_effect, ht]
  · simp [CausalModel.identify_effect, hg, CausalIdentifier.identify_effect, ht]
  · intro p est m2 hok
    simp only [CausalModel.identify_effect, hg, CausalIdentifier.identify_effect, ht,
      if_true] at hok
    cases hok
    simp [preservesStoredFields, hg, ht]

/-- Witness for C10 at the concrete sample model with explicit flag true. -/
theorem claim_C10_proceed_flag_scope_witness :
    sampleModel.graph = some sampleGraph ∧
    sampleModel.estimand_type = supportedEstimandType ∧
    (∀ p est m2, sampleModel.identify_effect p = .ok (est, m2) →
      preservesStoredFields sampleModel m2) :=
  ⟨rfl, rfl, (claim_C10_proceed_flag_scope sampleModel sampleGraph true rfl rfl).2.2⟩

/-- C2 counterexample: at a concrete estimand whose "iv" entry is null,
`estimate_effect` with method name "iv.instrumental_variable" fails at
selection time with *InvalidMethodSelection* (the spec's `setIdentifierMethod`
rejects a null entry before the null-estimand check is reached), so it does
not report a warning and does not return the no-op
`CausalEstimate(None, None, None)` the claim promises. -/
theorem claim_C2_counterexample :
    sampleModel.estimate_effect sampleEstimand (some "iv.instrumental_variable") =
      .error .invalidMethodSelection ∧
    sampleModel.estimate_effect sampleEstimand (some "iv.instrumental_variable") ≠
      .ok (⟨none, none, none⟩, true) := by
  have h : sampleModel.estimate_effect sampleEstimand (some "iv.instrumental_variable") =
      .error .invalidMethodSelection := by rfl
  exact ⟨h, by simp [h]⟩

/-- C2 (amended): for every call to `estimate_effect` with a method name
whose identifier part maps to a null entry in the estimand map, no estimator
runs: the call fails fatally at selection time with *InvalidMethodSelection*
(raised by `set_identifier_method` on the null entry) instead of reporting a
warning and returning a no-op estimate. -/
theorem claim_C2_null_estimand_selection_error (m : CausalModel) (ie : IdentifiedEstimand)
    (s idName estName : String) (hs : splitOnce s = [idName, estName])
    (hnull : ie.estimands.lookup idName = some none) :
    m.estimate_effect ie (some s) = .error .invalidMethodSelection := by
  simp [CausalModel.estimate_effect, hs, IdentifiedEstimand.set_identifier_method, hnull]

/-- Witness for the amended C2 at a concrete null "iv" entry. -/
theorem claim_C2_null_estimand_selection_error_witness :
    splitOnce "iv.instrumental_variable" = ["iv", "instrumental_variable"] ∧
    sampleEstimand.estimands.lookup "iv" = some none ∧
    sampleModel.estimate_effect sampleEstimand (some "iv.instrumental_variable") =
      .error .invalidMethodSelection :=
  ⟨by decide, by decide, claim_C2_null_estimand_selection_error sampleModel sampleEstimand
    "iv.instrumental_variable" "iv" "instrumental_variable" (by decide) (by decide)⟩

/-- C3: selecting an identifier method name that is absent from the estimand
map or whose mapped value is null fails fatally at selection time with
*InvalidMethodSelection* — both directly at `set_identifier_method` and
inside `estimate_effect`, which therefore never reaches any estimation
step. -/
theorem claim_C3_invalid_selection_fatal (m : CausalModel) (ie : IdentifiedEstimand)
    (s idName estName : String) (hs : splitOnce s = [idName, estName])
    (hbad : ie.estimands.lookup idName = none ∨ ie.estimands.lookup idName = some none) :
    ie.set_identifier_method idName = .error .invalidMethodSelection ∧
    m.estimate_effect ie (some s) = .error .invalidMethodSelection := by
  have hsel : ie.set_identifier_method idName = .error .invalidMethodSelection := by
    cases hbad with
    | inl h => simp [IdentifiedEstimand.set_identifier_method, h]
    | inr h => simp [IdentifiedEstimand.set_identifier_method, h]
  refine ⟨hsel, ?_⟩
  simp [CausalModel.estimate_effect, hs, hsel]

/-- Witness for C3 at a concrete method name absent from the estimand map. -/
theorem claim_C3_invalid_selection_fatal_witness :
    splitOnce "propensity.matching" = ["propensity", "matching"] ∧
    sampleEstimand.estimands.lookup "propensity" = none ∧
    sampleEstimand.set_identifier_method "propensity" = .error .invalidMethodSelection ∧
    sampleModel.estimate_effect sampleEstimand (some "propensity.matching") =
      .error .invalidMethodSelection :=
  ⟨by decide, by decide, claim_C3_invalid_selection_fatal sampleModel sampleEstimand
    "propensity.matching" "propensity" "matching" (by decide) (Or.inl (by decide))⟩

/-- C5 counterexample: at the concrete no-graph/no-roles construction the
confirmation gate is performed by `__init__` itself as an inline
`cli.query_yes_no` terminal prompt — recorded as the construction's
inline-I/O effect — and construction takes no caller-supplied confirmation
callback, refuting the claim's "injectable confirmation callback supplied by
the caller rather than inline I/O performed inside construction". -/
theorem claim_C5_counterexample :
    CausalModel.init ungraphedArgs =
      .ok (ungraphedModel, [InitEffect.inlineQueryYesNo warnNoCommonCausesMsg none]) := by
  rfl

/-- C5 (amended): for every construction in which no graph, no common causes
and no instruments are provided, the model requests interactive yes/no
confirmation before proceeding, and this gate is realized as an inline
`cli.query_yes_no` prompt executed inside construction (there is no
injectable caller-supplied confirmation callback). -/
theorem claim_C5_inline_confirmation (a : InitArgs)
    (hg : a.graph = none) (hc : a.common_causes = none) (hi : a.instruments = none) :
    ∃ m, CausalModel.init a =
      .ok (m, [InitEffect.inlineQueryYesNo warnNoCommonCausesMsg none]) := by
  have h1 : CausalModel.init a = .ok
      ({ data := a.data
         treatment := a.treatment
         outcome := a.outcome
         estimand_type := a.estimand_type
         proceed_when_unidentifiable := a.proceed_when_unidentifiable
         missing_nodes_as_confounders := a.missing_nodes_as_confounders
         graph := none
         common_causes := []
         instruments := []
         effect_modifiers := parse_state a.effect_modifiers
         identifier := none }, [.inlineQueryYesNo warnNoCommonCausesMsg none]) := by
    simp [CausalModel.init, hg, hc, hi, parse_state]
  exact ⟨_, h1⟩

/-- Witness for the amended C5 at the concrete no-graph/no-roles
arguments. -/
theorem claim_C5_inline_confirmation_witness :
    ungraphedArgs.graph = none ∧ ungraphedArgs.common_causes = none ∧
    ungraphedArgs.instruments = none ∧
    ∃ m, CausalModel.init ungraphedArgs =
      .ok (m, [InitEffect.inlineQueryYesNo warnNoCommonCausesMsg none]) :=
  ⟨rfl, rfl, rfl, claim_C5_inline_confirmation ungraphedArgs rfl rfl rfl⟩

/-- C7: for every construction with `missing_nodes_as_confounders` enabled
and an explicit graph supplied, the flag and the observed column names are
forwarded into graph construction, and each dataset column absent from the
declared graph becomes a node of the constructed graph with a direct edge
into every treatment and every outcome node. -/
theorem claim_C7_missing_nodes_added (a : InitArgs) (gs : GraphSpec) (c : String)
    (hg : a.graph = some gs) (hm : a.missing_nodes_as_confounders = true)
    (hcol : c ∈ a.data.columns) (habs : c ∉ gs.nodes) :
    ∃ m, CausalModel.init a = .ok (m, []) ∧
      m.graph = some (causalGraphFromSpec a.treatment a.outcome gs a.data.columns true) ∧
      c ∈ (causalGraphFromSpec a.treatment a.outcome gs a.data.columns true).nodes ∧
      (∀ t ∈ a.treatment,
        (c, t) ∈ (causalGraphFromSpec a.treatment a.outcome gs a.data.columns true).edges) ∧
      (∀ y ∈ a.outcome,
        (c, y) ∈ (causalGraphFromSpec a.treatment a.outcome gs a.data.columns true).edges) := by
  have hmem : c ∈ (causalGraphFromSpec a.treatment a.outcome gs a.data.columns true).nodes := by
    simp [causalGraphFromSpec, List.mem_filter, hcol, habs]
  have hmiss : c ∈ a.data.columns.filter (fun v => !(decide (v ∈ gs.nodes))) := by
    simp [List.mem_filter, hcol, habs]
  refine ⟨graphBranchModel a gs, init_of_graph a gs hg, ?_, hmem, ?_, ?_⟩
  · simp [graphBranchModel, hm]
  · intro t ht
    simp only [causalGraphFromSpec, List.mem_append, List.mem_flatMap]
    exact Or.inr ⟨c, hmiss, by simp [List.mem_map, ht]⟩
  · intro y hy
    simp only [causalGraphFromSpec, List.mem_append, List.mem_flatMap]
    exact Or.inr ⟨c, hmiss, by simp [List.mem_map, hy]⟩

/-- Witness for C7 at the sample arguments, whose column "W" is absent from
the declared graph. -/
theorem claim_C7_missing_nodes_added_witness :
    sampleGraphArgs.graph = some sampleGraphSpec ∧
    sampleGraphArgs.missing_nodes_as_confounders = true ∧
    "W" ∈ sampleGraphArgs.data.columns ∧ "W" ∉ sampleGraphSpec.nodes ∧
    ∃ m, CausalModel.init sampleGraphArgs = .ok (m, []) ∧
      m.graph = some (causalGraphFromSpec sampleGraphArgs.treatment sampleGraphArgs.outcome
        sampleGraphSpec sampleGraphArgs.data.columns true) ∧
      "W" ∈ (causalGraphFromSpec sampleGraphArgs.treatment sampleGraphArgs.outcome
        sampleGraphSpec sampleGraphArgs.data.columns true).nodes ∧
      (∀ t ∈ sampleGraphArgs.treatment,
        ("W", t) ∈ (causalGraphFromSpec sampleGraphArgs.treatment sampleGraphArgs.outcome
          sampleGraphSpec sampleGraphArgs.data.columns true).edges) ∧
      (∀ y ∈ sampleGraphArgs.outcome,
        ("W", y) ∈ (causalGraphFromSpec sampleGraphArgs.treatment sampleGraphArgs.outcome
          sampleGraphSpec sampleGraphArgs.data.columns true).edges) :=
  ⟨rfl, rfl, by decide, by decide, claim_C7_missing_nodes_added sampleGraphArgs
    sampleGraphSpec "W" rfl rfl (by decide) (by decide)⟩

theorem rolesEdges_mem (t y : String) (ccs cols : List String) (a b : String) :
    (a, b) ∈ (causalGraphFromRoles [t] [y] ccs [] [] cols).edges ↔
      (a ∈ ccs ∧ (b = t ∨ b = y)) ∨ (a = t ∧ b = y) := by
  simp only [causalGraphFromRoles, List.mem_append, List.mem_flatMap, List.mem_map,
    List.mem_singleton, Prod.mk.injEq]
  constructor
  · rintro (((⟨c, hc, t2, ht2, ha, hb⟩ | ⟨c, hc, y2, hy2, ha, hb⟩) | ⟨c, hc, t2, ht2, ha, hb⟩) |
      ⟨t2, ht2, y2, hy2, ha, hb⟩)
    · subst_vars
      exact Or.inl ⟨hc, Or.inl rfl⟩
    · subst_vars
      exact Or.inl ⟨hc, Or.inr rfl⟩
    · exact absurd hc (List.not_mem_nil c)
    · subst_vars
      exact Or.inr ⟨rfl, rfl⟩
  · rintro (⟨hc, rfl | rfl⟩ | ⟨rfl, rfl⟩)
    · exact Or.inl (Or.inl (Or.inl ⟨a, hc, b, rfl, rfl, rfl⟩))
    · exact Or.inl (Or.inl (Or.inr ⟨a, hc, b, rfl, rfl, rfl⟩))
    · exact Or.inr ⟨a, rfl, b, rfl, rfl, rfl⟩

theorem isAncestorFuel_no_incoming {E : List (String × String)} {b : String}
    (h : ∀ p ∈ E, p.2 ≠ b) (n : Nat) (a : String) : isAncestorFuel E n a b = false := by
  cases n with
  | zero => rfl
  | succ m =>
      simp only [isAncestorFuel, Bool.or_eq_false_iff, decide_eq_false_iff_not,
        List.any_eq_false]
      refine ⟨fun hmem => h _ hmem rfl, fun e he => ?_⟩
      have : e.2 ≠ b := h e he
      simp [this]

theorem rolesGraph_no_incoming (t y : String) (ccs cols : List String) (b : String)
    (hbt : b ≠ t) (hby : b ≠ y) (n : Nat) (a : String) :
    isAncestorFuel (causalGraphFromRoles [t] [y] ccs [] [] cols).edges n a b = false := by
  apply isAncestorFuel_no_incoming _ n a
  intro p hp hpb
  have hp2 : (p.1, p.2) ∈ (causalGraphFromRoles [t] [y] ccs [] [] cols).edges := by
    simpa using hp
  rcases (rolesEdges_mem t y ccs cols p.1 p.2).mp hp2 with ⟨_, h | h⟩ | ⟨_, h⟩
  · exact hbt (hpb ▸ h)
  · exact hby (hpb ▸ h)
  · exact hby (hpb ▸ h)

theorem rolesGraph_anc_t (t y : String) (ccs cols : List String)
    (h1 : t ∉ ccs) (h2 : y ∉ ccs) (h3 : t ≠ y) (n : Nat) (a : String) :
    isAncestorFuel (causalGraphFromRoles [t] [y] ccs [] [] cols).edges (n + 1) a t =
      decide (a ∈ ccs) := by
  have hany : (causalGraphFromRoles [t] [y] ccs [] [] cols).edges.any
      (fun e => e.2 == t &&
        isAncestorFuel (causalGraphFromRoles [t] [y] ccs [] [] cols).edges n a e.1) = false := by
    rw [List.any_eq_false]
    intro e he
    have he2 : (e.1, e.2) ∈ (causalGraphFromRoles [t] [y] ccs [] [] cols).edges := by
      simpa using he
    rcases (rolesEdges_mem t y ccs cols e.1 e.2).mp he2 with ⟨hc, ht | hy⟩ | ⟨het, hey⟩
    · have hzero : isAncestorFuel (causalGraphFromRoles [t] [y] ccs [] [] cols).edges n a e.1
          = false :=
        rolesGraph_no_incoming t y ccs cols e.1 (fun h => h1 (h ▸ hc)) (fun h => h2 (h ▸ hc)) n a
      simp [hzero]
    · have : e.2 ≠ t := by rw [hy]; exact fun h => h3 h.symm
      simp [this]
    · have : e.2 ≠ t := by rw [hey]; exact fun h => h3 h.symm
      simp [this]
  rw [isAncestorFuel, hany, Bool.or_false]
  apply decide_eq_decide.mpr
  rw [rolesEdges_mem]
  constructor
  · rintro (⟨hc, _⟩ | ⟨_, hty⟩)
    · exact hc
    · exact absurd hty h3
  · intro hc
    exact Or.inl ⟨hc, Or.inl rfl⟩

theorem rolesGraph_anc_y (t y : String) (ccs cols : List String)
    (h1 : t ∉ ccs) (h2 : y ∉ ccs) (h3 : t ≠ y) (n : Nat) (a : String) :
    isAncestorFuel (causalGraphFromRoles [t] [y] ccs [] [] cols).edges (n + 2) a y =
      decide (a ∈ ccs ∨ a = t) := by
  have hany : (causalGraphFromRoles [t] [y] ccs [] [] cols).edges.any
      (fun e => e.2 == y &&
        isAncestorFuel (causalGraphFromRoles [t] [y] ccs [] [] cols).edges (n + 1) a e.1) =
      decide (a ∈ ccs) := by
    by_cases ha : a ∈ ccs
    · rw [List.any_eq_true.mpr, decide_eq_true ha]
      refine ⟨(t, y), (rolesEdges_mem t y ccs cols t y).mpr (Or.inr ⟨rfl, rfl⟩), ?_⟩
      simp [rolesGraph_anc_t t y ccs cols h1 h2 h3 n a, ha]
    · rw [List.any_eq_false.mpr, decide_eq_false ha]
      intro e he
      have he2 : (e.1, e.2) ∈ (causalGraphFromRoles [t] [y] ccs [] [] cols).edges := by
        simpa using he
      rcases (rolesEdges_mem t y ccs cols e.1 e.2).mp he2 with ⟨hc, ht | hy⟩ | ⟨het, hey⟩
      · have : e.2 ≠ y := by rw [ht]; exact h3
        simp [this]
      · have hzero : isAncestorFuel (causalGraphFromRoles [t] [y] ccs [] [] cols).edges
            (n + 1) a e.1 = false :=
          rolesGraph_no_incoming t y ccs cols e.1 (fun h => h1 (h ▸ hc))
            (fun h => h2 (h ▸ hc)) (n + 1) a
        simp [hzero]
      · have hfin : isAncestorFuel (causalGraphFromRoles [t] [y] ccs [] [] cols).edges
            (n + 1) a e.1 = false := by
          rw [het, rolesGraph_anc_t t y ccs cols h1 h2 h3 n a, decide_eq_false ha]
        simp [hfin]
  rw [isAncestorFuel, hany]
  have hdec : decide ((a, y) ∈ (causalGraphFromRoles [t] [y] ccs [] [] cols).edges) =
      decide (a ∈ ccs ∨ a = t) := by
    apply decide_eq_decide.mpr
    rw [rolesEdges_mem]
    constructor
    · rintro (⟨hc, _⟩ | ⟨hat, _⟩)
      · exact Or.inl hc
      · exact Or.inr hat
    · rintro (hc | hat)
      · exact Or.inl ⟨hc, Or.inr rfl⟩
      · exact Or.inr ⟨hat, rfl⟩
  rw [hdec, ← Bool.decide_or]
  apply decide_eq_decide.mpr
  tauto

theorem rolesGraph_get_common_causes (t y : String) (ccs cols : List String)
    (h1 : t ∉ ccs) (h2 : y ∉ ccs) (h3 : t ≠ y) :
    (causalGraphFromRoles [t] [y] ccs [] [] cols).get_common_causes [t] [y] = ccs := by
  have hlen : (causalGraphFromRoles [t] [y] ccs [] [] cols).nodes.length = ccs.length + 2 := by
    simp [causalGraphFromRoles]
  have hanc_t : ∀ a, (causalGraphFromRoles [t] [y] ccs [] [] cols).isAncestorOf a t =
      decide (a ∈ ccs) := by
    intro a
    rw [CausalGraph.isAncestorOf, hlen]
    exact rolesGraph_anc_t t y ccs cols h1 h2 h3 (ccs.length + 1) a
  have hanc_y : ∀ a, (causalGraphFromRoles [t] [y] ccs [] [] cols).isAncestorOf a y =
      decide (a ∈ ccs ∨ a = t) := by
    intro a
    rw [CausalGraph.isAncestorOf, hlen]
    exact rolesGraph_anc_y t y ccs cols h1 h2 h3 ccs.length a
  have hanc_cc : ∀ a c, c ≠ t → c ≠ y →
      (causalGraphFromRoles [t] [y] ccs [] [] cols).isAncestorOf a c = false := by
    intro a c hct hcy
    rw [CausalGraph.isAncestorOf]
    exact rolesGraph_no_incoming t y ccs cols c hct hcy _ a
  have hnodes : (causalGraphFromRoles [t] [y] ccs [] [] cols).nodes = (ccs ++ [t]) ++ [y] := by
    simp [causalGraphFromRoles]
  rw [CausalGraph.get_common_causes, hnodes, List.filter_append, List.filter_append]
  have hccs : ccs.filter (fun v =>
      [t].any (fun t2 => (causalGraphFromRoles [t] [y] ccs [] [] cols).isAncestorOf v t2) &&
      [y].any (fun y2 => (causalGraphFromRoles [t] [y] ccs [] [] cols).isAncestorOf v y2) &&
      !([t].any (fun t2 => (causalGraphFromRoles [t] [y] ccs [] [] cols).isAncestorOf t2 v))) =
      ccs := by
    apply List.filter_eq_self.mpr
    intro c hc
    have hct : c ≠ t := fun h => h1 (h ▸ hc)
    have hcy : c ≠ y := fun h => h2 (h ▸ hc)
    simp [hanc_t, hanc_y, hanc_cc t c hct hcy, hc]
  have hT : [t].filter (fun v =>
      [t].any (fun t2 => (causalGraphFromRoles [t] [y] ccs [] [] cols).isAncestorOf v t2) &&
      [y].any (fun y2 => (causalGraphFromRoles [t] [y] ccs [] [] cols).isAncestorOf v y2) &&
      !([t].any (fun t2 => (causalGraphFromRoles [t] [y] ccs [] [] cols).isAncestorOf t2 v))) =
      [] := by
    simp [hanc_t, h1]
  have hY : [y].filter (fun v =>
      [t].any (fun t2 => (causalGraphFromRoles [t] [y] ccs [] [] cols).isAncestorOf v t2) &&
      [y].any (fun y2 => (causalGraphFromRoles [t] [y] ccs [] [] cols).isAncestorOf v y2) &&
      !([t].any (fun t2 => (causalGraphFromRoles [t] [y] ccs [] [] cols).isAncestorOf t2 v))) =
      [] := by
    simp [hanc_t, h2]
  rw [hccs, hT, hY, List.append_nil, List.append_nil]

/-- C6: a model constructed without a graph from a declared list of
common-cause names (no instruments, no effect modifiers, names distinct from
treatment and outcome) stores exactly the declared names as its common-cause
set, and querying `get_common_causes` on the graph synthesized from those
declared names returns exactly those names. -/
theorem claim_C6_common_cause_round_trip (a : InitArgs) (t y : String) (ccs : List String)
    (hT : a.treatment = [t]) (hY : a.outcome = [y]) (hg : a.graph = none)
    (hcc : a.common_causes = some ccs) (hi : a.instruments = none)
    (he : a.effect_modifiers = none)
    (h1 : t ∉ ccs) (h2 : y ∉ ccs) (h3 : t ≠ y) :
    ∃ m, CausalModel.init a = .ok (m, []) ∧ m.common_causes = ccs ∧
      m.graph = some (causalGraphFromRoles [t] [y] ccs [] [] a.data.columns) ∧
      (causalGraphFromRoles [t] [y] ccs [] [] a.data.columns).get_common_causes [t] [y] =
        ccs := by
  have hinit : CausalModel.init a = .ok
      ({ data := a.data
         treatment := a.treatment
         outcome := a.outcome
         estimand_type := a.estimand_type
         proceed_when_unidentifiable := a.proceed_when_unidentifiable
         missing_nodes_as_confounders := a.missing_nodes_as_confounders
         graph := some (causalGraphFromRoles [t] [y] ccs [] [] a.data.columns)
         common_causes := ccs
         instruments := []
         effect_modifiers := []
         identifier := none }, []) := by
    simp [CausalModel.init, hg, hcc, hi, he, hT, hY, parse_state]
  exact ⟨_, hinit, rfl, rfl, rolesGraph_get_common_causes t y ccs a.data.columns h1 h2 h3⟩

/-- Witness for C6 at the concrete declared common causes Z1, Z2. -/
theorem claim_C6_common_cause_round_trip_witness :
    declaredCCArgs.treatment = ["T"] ∧ declaredCCArgs.outcome = ["Y"] ∧
    declaredCCArgs.common_causes = some ["Z1", "Z2"] ∧
    "T" ∉ ["Z1", "Z2"] ∧ "Y" ∉ ["Z1", "Z2"] ∧ "T" ≠ "Y" ∧
    ∃ m, CausalModel.init declaredCCArgs = .ok (m, []) ∧
      m.common_causes = ["Z1", "Z2"] ∧
      m.graph = some (causalGraphFromRoles ["T"] ["Y"] ["Z1", "Z2"] [] []
        declaredCCArgs.data.columns) ∧
      (causalGraphFromRoles ["T"] ["Y"] ["Z1", "Z2"] [] []
        declaredCCArgs.data.columns).get_common_causes ["T"] ["Y"] = ["Z1", "Z2"] :=
  ⟨rfl, rfl, rfl, by decide, by decide, by decide,
    claim_C6_common_cause_round_trip declaredCCArgs "T" "Y" ["Z1", "Z2"] rfl rfl rfl rfl rfl
      rfl (by decide) (by decide) (by decide)⟩
